import Mathlib

/-!
Shallow embedding of `experiments/spider_dg/bayesian_meta_train.py`
(class `BayesianMetaTrainer`) from the tensor2struct repository.

The file under verification is orchestration glue: it builds a training
configuration, constructs a BMAML trainer plus an outer optimizer and
learning-rate scheduler (with a special case for BERT-style parameter
groups), and runs a per-step batch-accumulation loop with gradient
clipping, one optimizer step, a learning-rate update and periodic
metric reporting.

External dependencies (the model's parameter accessors, the registry
constructors for optimizer and scheduler, the task scheduler, the
`bmaml.meta_train` bi-level call, `optimizer.step`/`zero_grad`) are not
part of the source file; they are abstracted as function-valued inputs.
Everything the source file itself does - the assertions, the branch
structure, the order of effects, the loss bookkeeping, the reporting
cadence - is translated directly and the side effects that cross the
boundary to the external dependencies are recorded as an event trace.
Numeric hyperparameters (learning rates, clip thresholds) are modelled
as rationals.
-/

namespace Tensor2Struct

/-- A model parameter: its tensor data (flattened) and its current
gradient (`none` models PyTorch's `p.grad is None`). -/
structure Param where
  data : List ℚ
  grad : Option (List ℚ)
deriving Repr, DecidableEq

/-- One optimizer parameter group: the params it owns and its current
learning rate (`param_group["params"]`, `param_group["lr"]`). -/
structure ParamGroup where
  params : List Param
  lr : ℚ
deriving Repr, DecidableEq

/-- The outer optimizer, as observed by the source file: the attributes
`non_bert_param_group` and `bert_param_group` (present on the optimizer
built by the BERT branch) and `param_groups`. Its internals are
external. -/
structure Optimizer where
  non_bert_param_group : ParamGroup
  bert_param_group : ParamGroup
  param_groups : List ParamGroup
deriving Repr, DecidableEq

/-- The learning-rate scheduler, as observed by the source file: the
`param_groups` binding it was constructed over, and its external
`update_lr` method (returns `None` or a list of learning rates). -/
structure Scheduler where
  bound_param_groups : List ParamGroup
  update_lr : Nat → Option (List ℚ)

/-- The model, as observed by the source file: the four parameter
accessors it calls (`parameters()`, `get_trainable_parameters()`,
`get_bert_parameters()`, `get_non_bert_parameters()`). Their
implementations are external, so they are independent fields here. -/
structure Model where
  parameters : List Param
  trainable_parameters : List Param
  bert_parameters : List Param
  non_bert_parameters : List Param
deriving Repr, DecidableEq

/-- The `bmaml.BMAML` trainer object, holding the constructor arguments
the source file passes (model and device omitted). -/
structure BMAML where
  inner_lr : ℚ
  first_order : Bool
  num_particles : Nat
deriving Repr, DecidableEq

/-- Fields of `MetaTrainConfig` read by the source file. `clip_grad = none`
models an unset clip threshold; `inner_opt_lr` is
`train_config.inner_opt["lr"]`. -/
structure TrainConfig where
  inner_lr : ℚ
  first_order : Bool
  num_particles : Nat
  num_batch_accumulated : Nat
  clip_grad : Option ℚ
  report_every_n : Nat
  use_bert_training : Bool
  inner_opt_lr : ℚ
deriving Repr, DecidableEq

/-- Python truthiness of the optional clip threshold: `None` and `0.0`
are falsy, any other number is truthy. -/
def truthyClip : Option ℚ → Bool
  | none => false
  | some c => decide (c ≠ 0)

/-- A logger event emitted during `load_train_config`. -/
inductive LogEvent where
  | warn (msg : String)
  | info (msg : String)
deriving Repr, DecidableEq

/-- Python method `BayesianMetaTrainer.load_train_config`: instantiates the config
(instantiation itself is external registry plumbing, so the config is
taken as given) and emits a warning when batch accumulation is greater
than 1, and an informational recommendation when BERT training is on and
no clip threshold is configured. It never fails. -/
def load_train_config (tc : TrainConfig) : TrainConfig × List LogEvent :=
  (tc,
    (if tc.num_batch_accumulated > 1 then
      [LogEvent.warn "Batch accumulation is used only at MAML-step level"]
    else []) ++
    (if tc.use_bert_training then
      (if tc.clip_grad = none then
        [LogEvent.info "Gradient clipping is recommended for BERT training"]
      else [])
    else []))

/-- External registry constructors used by `load_optimizer`:
`registry.construct("optimizer", ..., non_bert_params=..., bert_params=...)`,
`registry.construct("optimizer", ..., params=...)`, and
`registry.construct("lr_scheduler", ..., param_groups=...)` (the latter
returning the scheduler's behaviour; the binding it is constructed over
is recorded by the caller). -/
structure OptExternals where
  construct_bert_optimizer : List Param → List Param → Optimizer
  construct_optimizer : List Param → Optimizer
  construct_lr_scheduler : List ParamGroup → (Nat → Option (List ℚ))

/-- Python method `BayesianMetaTrainer.load_optimizer`. The BERT branch asserts the
parameter-count partition (`len(non_bert) + len(bert) ==
len(list(model.parameters()))`) and non-emptiness of the BERT subset,
builds the optimizer from the two subsets, builds an lr scheduler over
`[optimizer.non_bert_param_group, optimizer.bert_param_group]`; the
plain branch builds the optimizer from `get_trainable_parameters()` and
a scheduler over `optimizer.param_groups`. In both branches the source
then rebinds `lr_scheduler` to a scheduler constructed over
`optimizer.param_groups` (lines 95-99) before returning. -/
def load_optimizer (ext : OptExternals) (tc : TrainConfig) (model : Model) :
    Except String (BMAML × Optimizer × Scheduler) :=
  let maml_trainer : BMAML :=
    { inner_lr := tc.inner_lr
      first_order := tc.first_order
      num_particles := tc.num_particles }
  if tc.use_bert_training then
    let bert_params := model.bert_parameters
    let non_bert_params := model.non_bert_parameters
    if non_bert_params.length + bert_params.length = model.parameters.length then
      if bert_params.length > 0 then
        let optimizer := ext.construct_bert_optimizer non_bert_params bert_params
        let lr_scheduler : Scheduler :=
          { bound_param_groups := [optimizer.non_bert_param_group, optimizer.bert_param_group]
            update_lr := ext.construct_lr_scheduler
              [optimizer.non_bert_param_group, optimizer.bert_param_group] }
        let lr_scheduler : Scheduler :=
          { bound_param_groups := optimizer.param_groups
            update_lr := ext.construct_lr_scheduler optimizer.param_groups }
        Except.ok (maml_trainer, optimizer, lr_scheduler)
      else
        Except.error "AssertionError: len(bert_params) > 0"
    else
      Except.error "AssertionError: len(non_bert_params) + len(bert_params) == len(list(self.model.parameters()))"
  else
    let optimizer := ext.construct_optimizer model.trainable_parameters
    let lr_scheduler : Scheduler :=
      { bound_param_groups := optimizer.param_groups
        update_lr := ext.construct_lr_scheduler optimizer.param_groups }
    let lr_scheduler : Scheduler :=
      { bound_param_groups := optimizer.param_groups
        update_lr := ext.construct_lr_scheduler optimizer.param_groups }
    Except.ok (maml_trainer, optimizer, lr_scheduler)

/-- Returns `true` iff `load_optimizer` returns without an assertion failure. -/
def loadOptimizerOk (ext : OptExternals) (tc : TrainConfig) (model : Model) : Bool :=
  match load_optimizer ext tc model with
  | Except.ok _ => true
  | Except.error _ => false

/-- A task pulled from the external data scheduler: an inner batch plus
a list of outer batches. Batches are opaque to the source file and are
modelled as tokens. -/
structure Task where
  inner_batch : Nat
  outer_batches : List Nat
deriving Repr, DecidableEq

/-- One observable effect of a `step` invocation, in order of
occurrence. Gradient clipping, the optimizer step, the gradient reset
and the scheduler update are calls into external code; the trace
records each call the source file makes. `logLoss`/`logInnerLr`/
`logOuterLr` are the three kinds of `wandb.log` emissions (the
`logger.info` text lines at the same cadence are not modelled). -/
inductive Event where
  | getBatch (last_step : Nat) (task : Task)
  | metaTrain (task : Task) (loss : ℚ)
  | clipGroup (idx : Nat) (max_norm : ℚ)
  | optStep
  | zeroGrad
  | updateLr (last_step : Nat)
  | logLoss (loss : ℚ) (step_idx : Nat)
  | logInnerLr (lr : ℚ) (step_idx : Nat)
  | logOuterLr (idx : Nat) (lr : ℚ) (step_idx : Nat)
deriving Repr, DecidableEq

namespace Event

def isGetBatch : Event → Bool
  | .getBatch .. => true
  | _ => false

def isMetaTrain : Event → Bool
  | .metaTrain .. => true
  | _ => false

def isClip : Event → Bool
  | .clipGroup .. => true
  | _ => false

def isOptStep : Event → Bool
  | .optStep => true
  | _ => false

def isZeroGrad : Event → Bool
  | .zeroGrad => true
  | _ => false

def isUpdateLr : Event → Bool
  | .updateLr .. => true
  | _ => false

def isLog : Event → Bool
  | .logLoss .. => true
  | .logInnerLr .. => true
  | .logOuterLr .. => true
  | _ => false

def isLogLoss : Event → Bool
  | .logLoss .. => true
  | _ => false

end Event

/-- External dependencies called by `step`:
`train_data_scheduler.get_batch` (its hidden internal state is
abstracted by the index of the call within this step),
`maml_trainer.meta_train` (accumulates gradients into the model's
parameters and returns `ret_dic["loss"]`), `optimizer.step()` and
`optimizer.zero_grad()` (both mutate the parameters they reference). -/
structure StepExternals where
  get_batch : Nat → Nat → Task
  meta_train : List Param → Task → List Param × ℚ
  opt_step : List Param → List Param
  zero_grad : List Param → List Param

/-- Lines 116-118 of the source: every model parameter whose gradient
is `None` receives a zero gradient of the parameter's shape
(`torch.zeros_like(p)`); parameters with a gradient are untouched. -/
def initGrads (ps : List Param) : List Param :=
  ps.map fun p =>
    if p.grad = none then { p with grad := some (p.data.map fun _ => 0) } else p

/-- The batch-accumulation loop (lines 120-132): iteration `i` pulls
one task via `get_batch(last_step)` and calls `meta_train`, rebinding
`loss` each time. Returns the final parameters, the last bound `loss`
(`none` when the loop body never ran) and the events in order. -/
def runAccum (ext : StepExternals) (last_step : Nat) :
    Nat → List Param → List Param × Option ℚ × List Event
  | 0, params => (params, none, [])
  | n + 1, params =>
    let prev := runAccum ext last_step n params
    let task := ext.get_batch n last_step
    let res := ext.meta_train prev.1 task
    (res.1, some res.2,
      prev.2.2 ++ [Event.getBatch last_step task, Event.metaTrain task res.2])

/-- Lines 135-139: when the clip threshold is truthy AND BERT training
is on, each of the optimizer's parameter groups is clipped to the
configured norm (`torch.nn.utils.clip_grad_norm_`, an external in-place
operation recorded as one event per group). -/
def clipEvents (tc : TrainConfig) (optimizer : Optimizer) : List Event :=
  if truthyClip tc.clip_grad && tc.use_bert_training then
    (List.range optimizer.param_groups.length).map fun i =>
      Event.clipGroup i (tc.clip_grad.getD 0)
  else []

/-- Lines 145-147: `outer_lr = lr_scheduler.update_lr(last_step)`, and
when that is `None`, `outer_lr = [param["lr"] for param in
optimizer.param_groups]`. -/
def computeOuterLr (lr_scheduler : Scheduler) (optimizer : Optimizer)
    (last_step : Nat) : List ℚ :=
  match lr_scheduler.update_lr last_step with
  | some v => v
  | none => optimizer.param_groups.map fun g => g.lr

/-- Lines 152-157 when the cadence fires: `wandb.log` of the loss, the
inner learning rate `inner_opt["lr"]`, and one `outer_lr_{idx}` entry
per element of `outer_lr`, all keyed by `last_step`. -/
def reportEvents (tc : TrainConfig) (outer_lr : List ℚ) (loss : ℚ)
    (last_step : Nat) : List Event :=
  Event.logLoss loss last_step :: Event.logInnerLr tc.inner_opt_lr last_step ::
    (outer_lr.enum.map fun p => Event.logOuterLr p.1 p.2 last_step)

/-- The body of `BayesianMetaTrainer.step` after the gradient initialization: the
accumulation loop, optional clipping, `optimizer.step()`,
`optimizer.zero_grad()`, the scheduler update, and reporting when
`last_step % report_every_n == 0`. A zero reporting interval raises
`ZeroDivisionError` at line 151; reporting with an unbound `loss`
(accumulation count 0) raises `NameError` at line 152. -/
def stepBody (tc : TrainConfig) (ext : StepExternals) (optimizer : Optimizer)
    (lr_scheduler : Scheduler) (last_step : Nat) (params1 : List Param) :
    Except String (List Param × List Event) :=
  let acc := runAccum ext last_step tc.num_batch_accumulated params1
  let params2 := ext.opt_step acc.1
  let params3 := ext.zero_grad params2
  let outer_lr := computeOuterLr lr_scheduler optimizer last_step
  let baseEvs := acc.2.2 ++ clipEvents tc optimizer ++
    [Event.optStep, Event.zeroGrad, Event.updateLr last_step]
  if tc.report_every_n = 0 then
    Except.error "ZeroDivisionError: integer division or modulo by zero"
  else if last_step % tc.report_every_n = 0 then
    match acc.2.1 with
    | none => Except.error "NameError: name loss is not defined"
    | some loss =>
      Except.ok (params3, baseEvs ++ reportEvents tc outer_lr loss last_step)
  else
    Except.ok (params3, baseEvs)

/-- Python method `BayesianMetaTrainer.step` (lines 102-157): first the unset
gradients are zero-initialized, then the rest of the step runs. -/
def step (tc : TrainConfig) (ext : StepExternals) (optimizer : Optimizer)
    (lr_scheduler : Scheduler) (last_step : Nat) (params0 : List Param) :
    Except String (List Param × List Event) :=
  stepBody tc ext optimizer lr_scheduler last_step (initGrads params0)

/-- The event trace of a successful `step`, `none` when the step
raises. -/
def stepTrace (tc : TrainConfig) (ext : StepExternals) (optimizer : Optimizer)
    (lr_scheduler : Scheduler) (last_step : Nat) (params0 : List Param) :
    Option (List Event) :=
  match step tc ext optimizer lr_scheduler last_step params0 with
  | Except.ok r => some r.2
  | Except.error _ => none

/-! ### Concrete fixtures used by witnesses and counterexamples -/

/-- A parameter whose gradient is unset. -/
def exParamA : Param := { data := [1, 2], grad := none }

/-- A parameter whose gradient is already set. -/
def exParamB : Param := { data := [3], grad := some [5] }

def exGroup : ParamGroup := { params := [exParamB], lr := 1 }

def exOptimizer : Optimizer :=
  { non_bert_param_group := { params := [], lr := 0 }
    bert_param_group := { params := [], lr := 0 }
    param_groups := [exGroup] }

def exScheduler : Scheduler :=
  { bound_param_groups := [exGroup], update_lr := fun _ => none }

def exStepExternals : StepExternals :=
  { get_batch := fun i s => { inner_batch := i + s, outer_batches := [] }
    meta_train := fun ps _ => (ps, 1)
    opt_step := fun ps => ps
    zero_grad := fun ps => ps.map fun p => { p with grad := none } }

def exOptExternals : OptExternals :=
  { construct_bert_optimizer := fun nb b =>
      { non_bert_param_group := { params := nb, lr := 1 }
        bert_param_group := { params := b, lr := 2 }
        param_groups := [{ params := nb, lr := 1 }, { params := b, lr := 2 }] }
    construct_optimizer := fun ps =>
      { non_bert_param_group := { params := [], lr := 0 }
        bert_param_group := { params := [], lr := 0 }
        param_groups := [{ params := ps, lr := 1 }] }
    construct_lr_scheduler := fun _ => fun _ => none }

/-- A configuration with a clip threshold set but BERT training off. -/
def exConfig : TrainConfig :=
  { inner_lr := 1
    first_order := true
    num_particles := 2
    num_batch_accumulated := 2
    clip_grad := some 1
    report_every_n := 5
    use_bert_training := false
    inner_opt_lr := 1 }

def exConfigBert : TrainConfig := { exConfig with use_bert_training := true }

def exConfigBertNoClip : TrainConfig :=
  { exConfig with use_bert_training := true, clip_grad := none }

/-- A model on which the partition check of the source (against
`parameters()`) passes while the spec's partition (against the
trainable parameters) fails: one parameter is frozen. -/
def exModelFrozen : Model :=
  { parameters := [exParamA, exParamB]
    trainable_parameters := [exParamB]
    bert_parameters := [exParamA]
    non_bert_parameters := [exParamB] }

/-- A model violating the partition check of the source. -/
def exModelBadPartition : Model :=
  { parameters := [exParamB]
    trainable_parameters := [exParamB]
    bert_parameters := [exParamA]
    non_bert_parameters := [exParamB] }

/-- A well-partitioned model. -/
def exModelOk : Model :=
  { parameters := [exParamA, exParamB]
    trainable_parameters := [exParamA, exParamB]
    bert_parameters := [exParamA]
    non_bert_parameters := [exParamB] }

/-- A model with an empty BERT parameter subset. -/
def exModelNoBert : Model :=
  { parameters := [exParamB]
    trainable_parameters := [exParamB]
    bert_parameters := []
    non_bert_parameters := [exParamB] }

/-! ### Helper lemmas about the event trace -/

lemma runAccum_filter_nil (ext : StepExternals) (last_step : Nat) (q : Event → Bool)
    (hg : ∀ s t, q (Event.getBatch s t) = false)
    (hm : ∀ t l, q (Event.metaTrain t l) = false) :
    ∀ (n : Nat) (params : List Param),
      ((runAccum ext last_step n params).2.2).filter q = [] := by
  intro n
  induction n with
  | zero => intro params; rfl
  | succ n ih =>
      intro params
      simp [runAccum, List.filter_append, ih, hg, hm]

lemma runAccum_metaTrain_count (ext : StepExternals) (last_step : Nat) :
    ∀ (n : Nat) (params : List Param),
      (((runAccum ext last_step n params).2.2).filter Event.isMetaTrain).length = n := by
  intro n
  induction n with
  | zero => intro params; rfl
  | succ n ih =>
      intro params
      simp [runAccum, List.filter_append, ih, Event.isMetaTrain, Event.isGetBatch]

lemma runAccum_getBatch_count (ext : StepExternals) (last_step : Nat) :
    ∀ (n : Nat) (params : List Param),
      (((runAccum ext last_step n params).2.2).filter Event.isGetBatch).length = n := by
  intro n
  induction n with
  | zero => intro params; rfl
  | succ n ih =>
      intro params
      simp [runAccum, List.filter_append, ih, Event.isMetaTrain, Event.isGetBatch]

lemma clipEvents_filter_nil (tc : TrainConfig) (optimizer : Optimizer)
    (q : Event → Bool) (hc : ∀ i c, q (Event.clipGroup i c) = false) :
    (clipEvents tc optimizer).filter q = [] := by
  unfold clipEvents
  split
  · refine List.filter_eq_nil_iff.2 ?_
    intro a ha
    simp only [List.mem_map, List.mem_range] at ha
    obtain ⟨i, -, rfl⟩ := ha
    simp [hc]
  · rfl

lemma reportEvents_filter_nil (tc : TrainConfig) (outer_lr : List ℚ) (loss : ℚ)
    (last_step : Nat) (q : Event → Bool)
    (h1 : ∀ l s, q (Event.logLoss l s) = false)
    (h2 : ∀ l s, q (Event.logInnerLr l s) = false)
    (h3 : ∀ i l s, q (Event.logOuterLr i l s) = false) :
    (reportEvents tc outer_lr loss last_step).filter q = [] := by
  unfold reportEvents
  simp only [List.filter_cons, h1, h2]
  refine List.filter_eq_nil_iff.2 ?_
  intro a ha
  simp only [List.mem_map] at ha
  obtain ⟨p, -, rfl⟩ := ha
  simp [h3]

lemma reportEvents_filter_isLog (tc : TrainConfig) (outer_lr : List ℚ) (loss : ℚ)
    (last_step : Nat) :
    (reportEvents tc outer_lr loss last_step).filter Event.isLog =
      reportEvents tc outer_lr loss last_step := by
  refine List.filter_eq_self.2 ?_
  intro a ha
  unfold reportEvents at ha
  simp only [List.mem_cons, List.mem_map] at ha
  rcases ha with rfl | rfl | ⟨p, -, rfl⟩ <;> rfl

/-- Characterization of a successful `step` call: the interval is
nonzero, and the trace is the accumulation events, the clip events, the
optimizer step, the gradient reset, the scheduler update, and - exactly
on the cadence - the report of the last bound loss. -/
lemma step_ok_events
    (tc : TrainConfig) (ext : StepExternals) (optimizer : Optimizer)
    (lr_scheduler : Scheduler) (last_step : Nat) (params0 ps' : List Param)
    (evs : List Event)
    (h : step tc ext optimizer lr_scheduler last_step params0 = Except.ok (ps', evs)) :
    tc.report_every_n ≠ 0 ∧
    (last_step % tc.report_every_n = 0 →
      ∃ loss,
        (runAccum ext last_step tc.num_batch_accumulated (initGrads params0)).2.1 =
          some loss ∧
        evs = (runAccum ext last_step tc.num_batch_accumulated (initGrads params0)).2.2 ++
          clipEvents tc optimizer ++
          [Event.optStep, Event.zeroGrad, Event.updateLr last_step] ++
          reportEvents tc (computeOuterLr lr_scheduler optimizer last_step) loss last_step) ∧
    (last_step % tc.report_every_n ≠ 0 →
      evs = (runAccum ext last_step tc.num_batch_accumulated (initGrads params0)).2.2 ++
        clipEvents tc optimizer ++
        [Event.optStep, Event.zeroGrad, Event.updateLr last_step]) := by
  unfold step stepBody at h
  split at h
  case isTrue hz => exact absurd h (by simp)
  case isFalse hz =>
    refine ⟨hz, ?_⟩
    split at h
    case isTrue hdue =>
      simp only [] at h
      split at h
      case h_1 => exact absurd h (by simp)
      case h_2 loss hloss =>
        simp only [Except.ok.injEq, Prod.mk.injEq] at h
        refine ⟨fun _ => ⟨loss, hloss, ?_⟩, fun hnot => absurd hdue hnot⟩
        rw [← h.2]
    case isFalse hdue =>
      simp only [Except.ok.injEq, Prod.mk.injEq] at h
      refine ⟨fun hd => absurd hd hdue, fun _ => ?_⟩
      rw [← h.2]

lemma clipEvents_filter_self (tc : TrainConfig) (optimizer : Optimizer)
    (q : Event → Bool) (hc : ∀ i c, q (Event.clipGroup i c) = true) :
    (clipEvents tc optimizer).filter q = clipEvents tc optimizer := by
  refine List.filter_eq_self.2 ?_
  intro a ha
  unfold clipEvents at ha
  split at ha
  · simp only [List.mem_map, List.mem_range] at ha
    obtain ⟨i, -, rfl⟩ := ha
    exact hc _ _
  · simp at ha

lemma reportEvents_filter_isLogLoss (tc : TrainConfig) (outer_lr : List ℚ)
    (loss : ℚ) (last_step : Nat) :
    (reportEvents tc outer_lr loss last_step).filter Event.isLogLoss =
      [Event.logLoss loss last_step] := by
  have hmap : (outer_lr.enum.map fun p =>
      Event.logOuterLr p.1 p.2 last_step).filter Event.isLogLoss = [] := by
    refine List.filter_eq_nil_iff.2 ?_
    intro a ha
    simp only [List.mem_map] at ha
    obtain ⟨p, -, rfl⟩ := ha
    simp [Event.isLogLoss]
  simp [reportEvents, List.filter_cons, hmap, Event.isLogLoss]

/-- For a predicate that ignores the reporting events, a successful
`step`'s filtered trace is the filtered accumulation, clip and
step/reset/update events, whether or not the cadence fired. -/
lemma step_ok_filter_no_report
    (tc : TrainConfig) (ext : StepExternals) (optimizer : Optimizer)
    (lr_scheduler : Scheduler) (last_step : Nat) (params0 ps' : List Param)
    (evs : List Event) (q : Event → Bool)
    (h : step tc ext optimizer lr_scheduler last_step params0 = Except.ok (ps', evs))
    (h1 : ∀ l s, q (Event.logLoss l s) = false)
    (h2 : ∀ l s, q (Event.logInnerLr l s) = false)
    (h3 : ∀ i l s, q (Event.logOuterLr i l s) = false) :
    evs.filter q =
      ((runAccum ext last_step tc.num_batch_accumulated (initGrads params0)).2.2).filter q ++
      (clipEvents tc optimizer).filter q ++
      ([Event.optStep, Event.zeroGrad, Event.updateLr last_step]).filter q := by
  obtain ⟨-, hdue, hnot⟩ :=
    step_ok_events tc ext optimizer lr_scheduler last_step params0 ps' evs h
  by_cases hd : last_step % tc.report_every_n = 0
  · obtain ⟨loss, -, hevs⟩ := hdue hd
    rw [hevs]
    simp only [List.filter_append,
      reportEvents_filter_nil tc _ loss last_step q h1 h2 h3, List.append_nil]
  · rw [hnot hd]
    simp only [List.filter_append]

/-! ### Claim theorems -/

/-- C9: configuration validation emits a warning iff the batch
accumulation count exceeds 1; when BERT training is enabled and no clip
threshold is configured it emits the clipping recommendation; and
construction succeeds (returns the config) in all cases. -/
theorem c9_config_validation (tc : TrainConfig) :
    (load_train_config tc).1 = tc ∧
    ((∃ m, LogEvent.warn m ∈ (load_train_config tc).2) ↔
      tc.num_batch_accumulated > 1) ∧
    (tc.use_bert_training = true → tc.clip_grad = none →
      LogEvent.info "Gradient clipping is recommended for BERT training" ∈
        (load_train_config tc).2) := by
  refine ⟨rfl, ⟨?_, ?_⟩, ?_⟩
  · rintro ⟨m, hm⟩
    by_contra hn
    rw [load_train_config] at hm
    simp only at hm
    rw [if_neg hn, List.nil_append] at hm
    by_cases hb : tc.use_bert_training <;> by_cases hc : tc.clip_grad = none <;>
      simp [hb, hc] at hm
  · intro hgt
    exact ⟨"Batch accumulation is used only at MAML-step level",
      by simp [load_train_config, hgt]⟩
  · intro hb hc
    simp [load_train_config, hb, hc]

/-- C9 witness: with BERT training on and no clip threshold, the
recommendation is emitted. -/
theorem c9_config_validation_witness :
    LogEvent.info "Gradient clipping is recommended for BERT training" ∈
      (load_train_config exConfigBertNoClip).2 :=
  (c9_config_validation exConfigBertNoClip).2.2 rfl rfl

/-- C2 counterexample: a model with a frozen (non-trainable) parameter.
The two subsets' sizes (1 + 1) do not sum to the trainable parameter
count (1), yet `load_optimizer` succeeds: the assertion does not compare
against the trainable parameter count, which contradicts the claim that
a violation of the trainable-count partition fails fast. -/
theorem c2_counterexample :
    exConfigBert.use_bert_training = true ∧
    exModelFrozen.non_bert_parameters.length + exModelFrozen.bert_parameters.length ≠
      exModelFrozen.trainable_parameters.length ∧
    loadOptimizerOk exOptExternals exConfigBert exModelFrozen = true := by
  refine ⟨rfl, by decide, rfl⟩

/-- C2 (amended): when BERT training is enabled, `load_optimizer`
asserts that the sizes of the two subsets sum exactly to the length of
`model.parameters()` (the full parameter list, trainable or not), and
fails fast when they do not. -/
theorem c2_partition_assertion (ext : OptExternals) (tc : TrainConfig)
    (model : Model) (hb : tc.use_bert_training = true)
    (hmis : model.non_bert_parameters.length + model.bert_parameters.length ≠
      model.parameters.length) :
    loadOptimizerOk ext tc model = false := by
  unfold loadOptimizerOk load_optimizer
  simp [hb, hmis]

/-- C2 witness: a model whose subsets do not partition `parameters()`
makes `load_optimizer` fail. -/
theorem c2_partition_assertion_witness :
    loadOptimizerOk exOptExternals exConfigBert exModelBadPartition = false :=
  c2_partition_assertion exOptExternals exConfigBert exModelBadPartition rfl
    (by decide)

/-- C8: when BERT training is enabled and the BERT parameter subset is
empty, `load_optimizer` fails fast by assertion. -/
theorem c8_bert_nonempty_assertion (ext : OptExternals) (tc : TrainConfig)
    (model : Model) (hb : tc.use_bert_training = true)
    (hempty : model.bert_parameters = []) :
    loadOptimizerOk ext tc model = false := by
  unfold loadOptimizerOk load_optimizer
  by_cases hp : model.non_bert_parameters.length = model.parameters.length <;>
    simp [hb, hempty, hp]

/-- C8 witness: an empty BERT subset makes `load_optimizer` fail. -/
theorem c8_bert_nonempty_assertion_witness :
    loadOptimizerOk exOptExternals exConfigBert exModelNoBert = false :=
  c8_bert_nonempty_assertion exOptExternals exConfigBert exModelNoBert rfl rfl

/-- C3: whenever `load_optimizer` returns, the returned scheduler is
bound to `optimizer.param_groups` - in the BERT branch the scheduler
first constructed over the pair
`[optimizer.non_bert_param_group, optimizer.bert_param_group]` is
discarded by the unconditional rebinding before the return. -/
theorem c3_scheduler_rebound (ext : OptExternals) (tc : TrainConfig)
    (model : Model) (mt : BMAML) (optimizer : Optimizer) (sched : Scheduler)
    (h : load_optimizer ext tc model = Except.ok (mt, optimizer, sched)) :
    sched.bound_param_groups = optimizer.param_groups := by
  unfold load_optimizer at h
  simp only [] at h
  split at h
  · split at h
    · split at h
      · simp only [Except.ok.injEq, Prod.mk.injEq] at h
        obtain ⟨-, h2, h3⟩ := h
        subst h2
        subst h3
        rfl
      · exact absurd h (by simp)
    · exact absurd h (by simp)
  · simp only [Except.ok.injEq, Prod.mk.injEq] at h
    obtain ⟨-, h2, h3⟩ := h
    subst h2
    subst h3
    rfl

/-- C3 witness: on a well-partitioned model under BERT training,
`load_optimizer` returns and the scheduler is bound to the optimizer's
`param_groups`. -/
theorem c3_scheduler_rebound_witness :
    ∃ mt optimizer sched,
      load_optimizer exOptExternals exConfigBert exModelOk =
        Except.ok (mt, optimizer, sched) ∧
      sched.bound_param_groups = optimizer.param_groups :=
  ⟨_, _, _, rfl,
    c3_scheduler_rebound exOptExternals exConfigBert exModelOk _ _ _ rfl⟩

/-- C1 counterexample: a configuration with a clip threshold set
(`clip_grad.isSome`) but BERT training disabled. The step succeeds and
its trace contains no clipping call, refuting the claim that clipping
is performed exactly when the clip threshold is set. -/
theorem c1_counterexample :
    exConfig.clip_grad.isSome = true ∧
    stepTrace exConfig exStepExternals exOptimizer exScheduler 0 [exParamA] ≠ none ∧
    ((stepTrace exConfig exStepExternals exOptimizer exScheduler 0 [exParamA]).getD
      []).filter Event.isClip = [] := by
  refine ⟨rfl, by decide, by decide⟩

/-- C1 (amended): gradients are clipped per parameter group (one call
per group of the outer optimizer, to the configured norm, all before
the optimizer step) exactly when the clip threshold is set to a truthy
(nonzero) value AND transformer-style (BERT) training is enabled. -/
theorem c1_clip_exactly_when (tc : TrainConfig) (ext : StepExternals)
    (optimizer : Optimizer) (lr_scheduler : Scheduler) (last_step : Nat)
    (params0 ps' : List Param) (evs : List Event)
    (h : step tc ext optimizer lr_scheduler last_step params0 = Except.ok (ps', evs)) :
    ((truthyClip tc.clip_grad && tc.use_bert_training) = true →
      evs.filter (fun e => e.isClip || e.isOptStep) =
        ((List.range optimizer.param_groups.length).map fun i =>
          Event.clipGroup i (tc.clip_grad.getD 0)) ++ [Event.optStep]) ∧
    ((truthyClip tc.clip_grad && tc.use_bert_training) = false →
      evs.filter Event.isClip = []) := by
  constructor
  · intro hcond
    rw [step_ok_filter_no_report tc ext optimizer lr_scheduler last_step params0
      ps' evs (fun e => e.isClip || e.isOptStep) h
      (fun _ _ => rfl) (fun _ _ => rfl) (fun _ _ _ => rfl)]
    rw [runAccum_filter_nil ext last_step _ (fun _ _ => rfl) (fun _ _ => rfl)]
    rw [clipEvents_filter_self tc optimizer _ (fun _ _ => rfl)]
    rw [clipEvents, if_pos hcond]
    rfl
  · intro hcond
    rw [step_ok_filter_no_report tc ext optimizer lr_scheduler last_step params0
      ps' evs Event.isClip h
      (fun _ _ => rfl) (fun _ _ => rfl) (fun _ _ _ => rfl)]
    rw [runAccum_filter_nil ext last_step _ (fun _ _ => rfl) (fun _ _ => rfl)]
    rw [clipEvents, if_neg (by simp [hcond])]
    rfl

/-- C1 witness: with a truthy clip threshold and BERT training on, the
trace clips each parameter group before the optimizer step. -/
theorem c1_clip_exactly_when_witness :
    ∃ ps' evs,
      step exConfigBert exStepExternals exOptimizer exScheduler 1 [exParamA] =
        Except.ok (ps', evs) ∧
      evs.filter (fun e => e.isClip || e.isOptStep) =
        ((List.range exOptimizer.param_groups.length).map fun i =>
          Event.clipGroup i (exConfigBert.clip_grad.getD 0)) ++ [Event.optStep] :=
  ⟨_, _, rfl,
    (c1_clip_exactly_when exConfigBert exStepExternals exOptimizer exScheduler 1
      [exParamA] _ _ rfl).1 rfl⟩

/-- C4: each successful `step` runs the bi-level `meta_train` call once
per accumulation iteration (`num_batch_accumulated` times, with one
task fetch per iteration) but performs exactly one optimizer step
followed by exactly one gradient reset, for any accumulation count. -/
theorem c4_accumulation_counts (tc : TrainConfig) (ext : StepExternals)
    (optimizer : Optimizer) (lr_scheduler : Scheduler) (last_step : Nat)
    (params0 ps' : List Param) (evs : List Event)
    (h : step tc ext optimizer lr_scheduler last_step params0 = Except.ok (ps', evs)) :
    (evs.filter Event.isMetaTrain).length = tc.num_batch_accumulated ∧
    (evs.filter Event.isGetBatch).length = tc.num_batch_accumulated ∧
    evs.filter (fun e => e.isOptStep || e.isZeroGrad) =
      [Event.optStep, Event.zeroGrad] := by
  refine ⟨?_, ?_, ?_⟩
  · rw [step_ok_filter_no_report tc ext optimizer lr_scheduler last_step params0
      ps' evs Event.isMetaTrain h
      (fun _ _ => rfl) (fun _ _ => rfl) (fun _ _ _ => rfl)]
    rw [clipEvents_filter_nil tc optimizer _ (fun _ _ => rfl)]
    simp [runAccum_metaTrain_count, Event.isMetaTrain]
  · rw [step_ok_filter_no_report tc ext optimizer lr_scheduler last_step params0
      ps' evs Event.isGetBatch h
      (fun _ _ => rfl) (fun _ _ => rfl) (fun _ _ _ => rfl)]
    rw [clipEvents_filter_nil tc optimizer _ (fun _ _ => rfl)]
    simp [runAccum_getBatch_count, Event.isGetBatch]
  · rw [step_ok_filter_no_report tc ext optimizer lr_scheduler last_step params0
      ps' evs (fun e => e.isOptStep || e.isZeroGrad) h
      (fun _ _ => rfl) (fun _ _ => rfl) (fun _ _ _ => rfl)]
    rw [runAccum_filter_nil ext last_step _ (fun _ _ => rfl) (fun _ _ => rfl)]
    rw [clipEvents_filter_nil tc optimizer _ (fun _ _ => rfl)]
    rfl

/-- C4 witness: with accumulation count 2, a successful step has two
`meta_train` calls, two task fetches, one optimizer step and one
gradient reset. -/
theorem c4_accumulation_counts_witness :
    ∃ ps' evs,
      step exConfig exStepExternals exOptimizer exScheduler 1 [exParamA] =
        Except.ok (ps', evs) ∧
      (evs.filter Event.isMetaTrain).length = exConfig.num_batch_accumulated ∧
      (evs.filter Event.isGetBatch).length = exConfig.num_batch_accumulated ∧
      evs.filter (fun e => e.isOptStep || e.isZeroGrad) =
        [Event.optStep, Event.zeroGrad] :=
  ⟨_, _, rfl,
    c4_accumulation_counts exConfig exStepExternals exOptimizer exScheduler 1
      [exParamA] _ _ rfl⟩

/-- C5: metrics are emitted exactly when `last_step` is divisible by
`report_every_n`: on the cadence the sink receives the loss, the inner
learning rate, and one learning rate per element of `outer_lr` - one
per parameter group, given that the external scheduler reports either
nothing or one value per group - each keyed by the step index; off the
cadence nothing is emitted. -/
theorem c5_report_cadence (tc : TrainConfig) (ext : StepExternals)
    (optimizer : Optimizer) (lr_scheduler : Scheduler) (last_step : Nat)
    (params0 ps' : List Param) (evs : List Event)
    (h : step tc ext optimizer lr_scheduler last_step params0 = Except.ok (ps', evs))
    (hlen : ∀ v, lr_scheduler.update_lr last_step = some v →
      v.length = optimizer.param_groups.length) :
    (last_step % tc.report_every_n ≠ 0 → evs.filter Event.isLog = []) ∧
    (last_step % tc.report_every_n = 0 →
      ∃ loss,
        evs.filter Event.isLog =
          Event.logLoss loss last_step ::
            Event.logInnerLr tc.inner_opt_lr last_step ::
            ((computeOuterLr lr_scheduler optimizer last_step).enum.map fun p =>
              Event.logOuterLr p.1 p.2 last_step)) ∧
    (computeOuterLr lr_scheduler optimizer last_step).length =
      optimizer.param_groups.length := by
  obtain ⟨-, hdue, hnot⟩ :=
    step_ok_events tc ext optimizer lr_scheduler last_step params0 ps' evs h
  refine ⟨?_, ?_, ?_⟩
  · intro hd
    rw [hnot hd]
    simp only [List.filter_append]
    rw [runAccum_filter_nil ext last_step _ (fun _ _ => rfl) (fun _ _ => rfl),
      clipEvents_filter_nil tc optimizer _ (fun _ _ => rfl)]
    rfl
  · intro hd
    obtain ⟨loss, -, hevs⟩ := hdue hd
    refine ⟨loss, ?_⟩
    rw [hevs]
    simp only [List.filter_append]
    rw [runAccum_filter_nil ext last_step _ (fun _ _ => rfl) (fun _ _ => rfl),
      clipEvents_filter_nil tc optimizer _ (fun _ _ => rfl),
      reportEvents_filter_isLog]
    rfl
  · unfold computeOuterLr
    cases hu : lr_scheduler.update_lr last_step with
    | none => simp
    | some v => exact hlen v hu

/-- C5 witness: at step index 0 with interval 5, the emission is the
loss, the inner learning rate, and the per-group learning rates. -/
theorem c5_report_cadence_witness :
    ∃ ps' evs,
      step exConfig exStepExternals exOptimizer exScheduler 0 [exParamA] =
        Except.ok (ps', evs) ∧
      ∃ loss,
        evs.filter Event.isLog =
          Event.logLoss loss 0 ::
            Event.logInnerLr exConfig.inner_opt_lr 0 ::
            ((computeOuterLr exScheduler exOptimizer 0).enum.map fun p =>
              Event.logOuterLr p.1 p.2 0) :=
  ⟨_, _, rfl,
    (c5_report_cadence exConfig exStepExternals exOptimizer exScheduler 0
      [exParamA] _ _ rfl (fun v hv => by simp [exScheduler] at hv)).2.1 rfl⟩

/-- C6: the scheduler update is invoked with the current step index
after the optimizer step, and the learning rates used for reporting
fall back to the optimizer's per-group rates exactly when the update
reports no value. -/
theorem c6_lr_update_fallback (tc : TrainConfig) (ext : StepExternals)
    (optimizer : Optimizer) (lr_scheduler : Scheduler) (last_step : Nat)
    (params0 ps' : List Param) (evs : List Event)
    (h : step tc ext optimizer lr_scheduler last_step params0 = Except.ok (ps', evs)) :
    (lr_scheduler.update_lr last_step = none →
      computeOuterLr lr_scheduler optimizer last_step =
        optimizer.param_groups.map fun g => g.lr) ∧
    (∀ v, lr_scheduler.update_lr last_step = some v →
      computeOuterLr lr_scheduler optimizer last_step = v) ∧
    evs.filter (fun e => e.isOptStep || e.isUpdateLr) =
      [Event.optStep, Event.updateLr last_step] := by
  refine ⟨?_, ?_, ?_⟩
  · intro hu
    unfold computeOuterLr
    rw [hu]
  · intro v hu
    unfold computeOuterLr
    rw [hu]
  · rw [step_ok_filter_no_report tc ext optimizer lr_scheduler last_step params0
      ps' evs (fun e => e.isOptStep || e.isUpdateLr) h
      (fun _ _ => rfl) (fun _ _ => rfl) (fun _ _ _ => rfl)]
    rw [runAccum_filter_nil ext last_step _ (fun _ _ => rfl) (fun _ _ => rfl),
      clipEvents_filter_nil tc optimizer _ (fun _ _ => rfl)]
    rfl

/-- C6 witness: with a scheduler whose update reports no value, the
reported rates are read from the parameter groups, and the update
follows the optimizer step in the trace. -/
theorem c6_lr_update_fallback_witness :
    ∃ ps' evs,
      step exConfig exStepExternals exOptimizer exScheduler 1 [exParamA] =
        Except.ok (ps', evs) ∧
      computeOuterLr exScheduler exOptimizer 1 =
        exOptimizer.param_groups.map (fun g => g.lr) ∧
      evs.filter (fun e => e.isOptStep || e.isUpdateLr) =
        [Event.optStep, Event.updateLr 1] := by
  refine ⟨_, _, rfl, ?_, ?_⟩
  · exact (c6_lr_update_fallback exConfig exStepExternals exOptimizer exScheduler
      1 [exParamA] _ _ rfl).1 rfl
  · exact (c6_lr_update_fallback exConfig exStepExternals exOptimizer exScheduler
      1 [exParamA] _ _ rfl).2.2

/-- C7: `step` first runs the gradient initialization and only then the
accumulation loop, and the initialization gives every parameter with an
unset gradient a zero gradient of the parameter's own shape while
leaving parameters that already have a gradient unchanged. -/
theorem c7_grad_init (ps : List Param) :
    (∀ (tc : TrainConfig) (ext : StepExternals) (optimizer : Optimizer)
        (lr_scheduler : Scheduler) (last_step : Nat),
      step tc ext optimizer lr_scheduler last_step ps =
        stepBody tc ext optimizer lr_scheduler last_step (initGrads ps)) ∧
    (initGrads ps).length = ps.length ∧
    (∀ i, i < ps.length →
      ∃ p p', ps[i]? = some p ∧ (initGrads ps)[i]? = some p' ∧
        (p.grad = none →
          p'.data = p.data ∧ p'.grad = some (List.replicate p.data.length 0)) ∧
        (p.grad ≠ none → p' = p)) := by
  refine ⟨fun _ _ _ _ _ => rfl, by simp [initGrads], ?_⟩
  intro i hi
  have hp : ps[i]? = some ps[i] := List.getElem?_eq_getElem hi
  refine ⟨ps[i],
    if ps[i].grad = none then
      { ps[i] with grad := some (ps[i].data.map fun _ => 0) }
    else ps[i], hp, ?_, ?_, ?_⟩
  · rw [initGrads, List.getElem?_map, hp, Option.map_some']
  · intro hnone
    rw [if_pos hnone]
    exact ⟨rfl, by simp [List.map_const']⟩
  · intro hsome
    rw [if_neg hsome]

/-- C7 witness: in a list whose first parameter has an unset gradient,
the initialization zero-fills that gradient at the parameter's shape. -/
theorem c7_grad_init_witness :
    ∃ p p', [exParamA, exParamB][0]? = some p ∧
      (initGrads [exParamA, exParamB])[0]? = some p' ∧
      (p.grad = none →
        p'.data = p.data ∧ p'.grad = some (List.replicate p.data.length 0)) ∧
      (p.grad ≠ none → p' = p) :=
  (c7_grad_init [exParamA, exParamB]).2.2 0 (by decide)

/-- C10: the loss the step reports is exactly the loss returned by the
final accumulation iteration's `meta_train` call - the value bound by
the last loop iteration; earlier iterations' losses are overwritten and
do not appear in the emission. -/
theorem c10_reported_loss_is_last (tc : TrainConfig) (ext : StepExternals)
    (optimizer : Optimizer) (lr_scheduler : Scheduler) (last_step : Nat)
    (params0 ps' : List Param) (evs : List Event) (m : Nat)
    (h : step tc ext optimizer lr_scheduler last_step params0 = Except.ok (ps', evs))
    (hn : tc.num_batch_accumulated = m + 1)
    (hdue : last_step % tc.report_every_n = 0) :
    evs.filter Event.isLogLoss =
      [Event.logLoss
        ((ext.meta_train (runAccum ext last_step m (initGrads params0)).1
          (ext.get_batch m last_step)).2) last_step] := by
  obtain ⟨-, hd, -⟩ :=
    step_ok_events tc ext optimizer lr_scheduler last_step params0 ps' evs h
  obtain ⟨loss, hloss, hevs⟩ := hd hdue
  have hlast : loss =
      (ext.meta_train (runAccum ext last_step m (initGrads params0)).1
        (ext.get_batch m last_step)).2 := by
    rw [hn] at hloss
    simp [runAccum] at hloss
    exact hloss.symm
  rw [hevs]
  simp only [List.filter_append]
  rw [runAccum_filter_nil ext last_step _ (fun _ _ => rfl) (fun _ _ => rfl),
    clipEvents_filter_nil tc optimizer _ (fun _ _ => rfl),
    reportEvents_filter_isLogLoss]
  rw [hlast]
  rfl

/-- C10 witness: with accumulation count 2, the single emitted loss is
the second (final) iteration's `meta_train` loss. -/
theorem c10_reported_loss_is_last_witness :
    ∃ ps' evs,
      step exConfig exStepExternals exOptimizer exScheduler 0 [exParamA] =
        Except.ok (ps', evs) ∧
      evs.filter Event.isLogLoss =
        [Event.logLoss
          ((exStepExternals.meta_train
            (runAccum exStepExternals 0 1 (initGrads [exParamA])).1
            (exStepExternals.get_batch 1 0)).2) 0] :=
  ⟨_, _, rfl,
    c10_reported_loss_is_last exConfig exStepExternals exOptimizer exScheduler 0
      [exParamA] _ _ 1 rfl rfl rfl⟩

end Tensor2Struct
